import Mathlib

/-!
Verification of the parent/child CRUD service with a Redis read-through
cache (FastAPI application: `app/routes.py`, `app/crud.py`, `app/models.py`,
`app/schemas.py`).

The embedding models:
* the relational store as lists of parent and child rows in insertion order
  (SQLAlchemy appends on create; `offset`/`limit` slice that order);
* the Redis cache as an association list of (key, value, ttl) entries plus an
  availability flag — when the flag is false every Redis call raises, exactly
  as an unreachable Redis server makes `redis_client.get`/`keys`/`set` raise
  a `ConnectionError`, which nothing in `routes.py` or `crud.py` catches;
* HTTP errors: `HTTPException(status, detail)` raised in `crud.py` is the
  `ApiError.http` constructor; an exception the code does not catch (an
  `IntegrityError` escaping `crud.create_child`, or a Redis `ConnectionError`)
  reaches FastAPI's generic handler and produces a 500 response, modelled by
  the `integrityUnhandled` / `cacheDown` constructors whose status is 500.

Mutable row attributes are `Option`-typed because `crud.update_parent` /
`crud.update_child` iterate over `model_dump()` of the update schema — which
contains every declared field, `None` for the ones the request omitted — and
`setattr` each of them onto the ORM row.  Commit-time constraint enforcement
by the database is modelled where `models.py` declares it: the unique email,
the child's foreign key, and the `nullable=False` columns (every Parent
payload column; the Child's `name` and `age`, but not its nullable `hobby`),
so an update that would write `NULL` into a NOT NULL column fails at commit
instead of persisting.
-/

/-- A row of the `parents` table (`models.Parent`): id, name, age, unique
email, address.  Attributes other than the primary key are `Option`-typed
since `update_parent` can `setattr` `None` onto them. -/
structure ParentRec where
  id : Nat
  name : Option String
  age : Option Nat
  email : Option String
  address : Option String
deriving DecidableEq, Repr

/-- A row of the `children` table (`models.Child`): id, name, age, the
`parent_id` foreign key and hobby.  `ChildUpdate` has no `parent_id` field,
so `parent_id` is a plain `Nat` set at creation. -/
structure ChildRec where
  id : Nat
  name : Option String
  age : Option Nat
  parent_id : Nat
  hobby : Option String
deriving DecidableEq, Repr

/-- The persistence store: both tables, rows in insertion order. -/
structure DB where
  parents : List ParentRec
  children : List ChildRec
deriving DecidableEq, Repr

/-- `schemas.ParentCreate`: all four payload fields required. -/
structure ParentCreate where
  name : String
  age : Nat
  email : String
  address : String
deriving DecidableEq, Repr

/-- `schemas.ChildCreate`: `ChildBase` (name, age, hobby all required) plus
the required `parent_id`. -/
structure ChildCreate where
  name : String
  age : Nat
  hobby : String
  parent_id : Nat
deriving DecidableEq, Repr

/-- `schemas.ParentUpdate`: every field `Optional`, defaulting to `None`. -/
structure ParentUpdate where
  name : Option String
  age : Option Nat
  email : Option String
  address : Option String
deriving DecidableEq, Repr

/-- `schemas.ChildUpdate`: optional name, age and hobby; no `parent_id`. -/
structure ChildUpdate where
  name : Option String
  age : Option Nat
  hobby : Option String
deriving DecidableEq, Repr

/-- One Redis entry: key, serialized payload, TTL in seconds as passed to
`redis_client.set(..., ex=...)`. -/
structure CacheEntry where
  key : String
  value : String
  ttl : Nat
deriving DecidableEq, Repr

/-- The Redis server: its keyspace, and whether it is reachable.  When
`available` is false every call on `redis_client` raises. -/
structure Cache where
  entries : List CacheEntry
  available : Bool
deriving DecidableEq, Repr

/-- A Redis client error (`redis.ConnectionError` when the server is
unreachable). -/
inductive CacheErr where
  | unreachable
deriving DecidableEq, Repr

/-- How a request terminates abnormally: `http` is an `HTTPException(status,
detail)` raised in `crud.py`; `integrityUnhandled` is an `IntegrityError`
escaping uncaught (FastAPI answers 500); `cacheDown` is an uncaught Redis
`ConnectionError` (FastAPI answers 500). -/
inductive ApiError where
  | http (status : Nat) (detail : String)
  | integrityUnhandled
  | cacheDown
deriving DecidableEq, Repr

/-- The HTTP status the client observes for each abnormal termination. -/
def ApiError.status : ApiError → Nat
  | .http s _ => s
  | .integrityUnhandled => 500
  | .cacheDown => 500

/-- Whether `p` is a prefix of `k`, on the underlying character lists. -/
def strPre (p k : String) : Bool := p.data.isPrefixOf k.data

/-- Redis glob matching as used by `redis_client.keys(pattern)` for the
patterns this code passes (`"parents:*"`, `"children:*"`): a trailing `*`
matches any suffix, otherwise the pattern matches only itself. -/
def matchesPat (pat : String) (key : String) : Bool :=
  if pat.data.getLast? = some '*' then
    pat.data.dropLast.isPrefixOf key.data
  else pat.data == key.data

/-- The value the keyspace currently holds at `key`, `none` when absent. -/
def Cache.lookup (c : Cache) (key : String) : Option String :=
  (c.entries.find? (fun e => e.key == key)).map (fun e => e.value)

/-- `redis_client.get(key)`: the value stored at `key`, `none` when absent;
raises when the server is unreachable. -/
def Cache.get (c : Cache) (key : String) : Except CacheErr (Option String) :=
  if c.available then .ok (c.lookup key) else .error .unreachable

/-- The keyspace after storing `value` under `key` with TTL `ttl`: the new
entry replaces any previous entry at the same key. -/
def Cache.setEntries (c : Cache) (key value : String) (ttl : Nat) :
    List CacheEntry :=
  ⟨key, value, ttl⟩ :: c.entries.filter (fun e => !(e.key == key))

/-- `redis_client.set(key, value, ex=ttl)`: overwrite the entry at `key`;
raises when the server is unreachable. -/
def Cache.set (c : Cache) (key value : String) (ttl : Nat) :
    Except CacheErr Cache :=
  if c.available then
    .ok { c with entries := c.setEntries key value ttl }
  else .error .unreachable

/-- `delete_keys_by_pattern` (routes.py): `keys = redis_client.keys(pattern)`
then `redis_client.delete(*keys)` when non-empty — net effect, every matching
key is removed; `keys()` raises when the server is unreachable. -/
def delete_keys_by_pattern (c : Cache) (pat : String) : Except CacheErr Cache :=
  if c.available then
    .ok { c with entries := c.entries.filter (fun e => !(matchesPat pat e.key)) }
  else .error .unreachable

/-- Python truthiness of `redis_client.get`'s result as tested by
`if cached_parents:` — false for `None` and for the empty byte string. -/
def pyTruthy : Option String → Bool
  | none => false
  | some v => !(v == "")

/-! ### Serialization

`read_parents` / `read_children` serialize through
`schemas.Parent.model_validate(x).model_dump()` and `json.dumps`; FastAPI's
`response_model` serializes the uncached return value through the same
Pydantic schemas, so one encoding function per schema models both paths.
Field order follows the schema declaration order of `model_dump`. -/

/-- JSON encoding of an optional string field (no escaping modelled). -/
def encOptStr : Option String → String
  | none => "null"
  | some s => "\"" ++ s ++ "\""

/-- JSON encoding of an optional integer field. -/
def encOptNat : Option Nat → String
  | none => "null"
  | some n => toString n

/-- JSON array from already-encoded elements. -/
def encodeList (xs : List String) : String :=
  "[" ++ String.intercalate ", " xs ++ "]"

/-- `schemas.Child` dump: name, age, hobby, id (no `parent_id` in the
response schema). -/
def encodeChild (c : ChildRec) : String :=
  "\x7b\"name\": " ++ encOptStr c.name ++ ", \"age\": " ++ encOptNat c.age ++
    ", \"hobby\": " ++ encOptStr c.hobby ++ ", \"id\": " ++ toString c.id ++
    "\x7d"

/-- The children of a given parent, as the `Parent.children` relationship
loads them. -/
def childrenOf (db : DB) (pid : Nat) : List ChildRec :=
  db.children.filter (fun c => c.parent_id == pid)

/-- `schemas.Parent` dump: name, age, email, address, id, children — the
children list embeds each child through `schemas.Child`. -/
def encodeParent (db : DB) (p : ParentRec) : String :=
  "\x7b\"name\": " ++ encOptStr p.name ++ ", \"age\": " ++ encOptNat p.age ++
    ", \"email\": " ++ encOptStr p.email ++ ", \"address\": " ++
    encOptStr p.address ++ ", \"id\": " ++ toString p.id ++
    ", \"children\": " ++ encodeList ((childrenOf db p.id).map encodeChild) ++
    "\x7d"

/-- `json.dumps([schemas.Parent.model_validate(p).model_dump() for p in l])`. -/
def serializeParents (db : DB) (l : List ParentRec) : String :=
  encodeList (l.map (encodeParent db))

/-- `json.dumps([schemas.Child.model_validate(c).model_dump() for c in l])`. -/
def serializeChildren (l : List ChildRec) : String :=
  encodeList (l.map encodeChild)

namespace crud

/-- The auto-increment id for a new parent row. -/
def nextParentId (db : DB) : Nat :=
  (db.parents.foldr (fun r m => max r.id m) 0) + 1

/-- The auto-increment id for a new child row. -/
def nextChildId (db : DB) : Nat :=
  (db.children.foldr (fun r m => max r.id m) 0) + 1

/-- `crud.create_parent`: insert and commit; a duplicate unique email makes
the commit raise `IntegrityError`, which this function catches and converts
to `HTTPException(400, "Parent with this email already exists.")`. -/
def create_parent (db : DB) (p : ParentCreate) :
    Except ApiError (DB × ParentRec) :=
  if db.parents.any (fun q => q.email == some p.email) then
    .error (.http 400 "Parent with this email already exists.")
  else
    let r : ParentRec :=
      ⟨nextParentId db, some p.name, some p.age, some p.email, some p.address⟩
    .ok (⟨db.parents ++ [r], db.children⟩, r)

/-- `crud.create_child`: insert and commit.  Unlike `create_parent` there is
no `try/except IntegrityError`: a `parent_id` that resolves to no parent row
violates the foreign key at commit and the `IntegrityError` escapes uncaught
(HTTP 500). -/
def create_child (db : DB) (c : ChildCreate) :
    Except ApiError (DB × ChildRec) :=
  if db.parents.any (fun q => q.id == c.parent_id) then
    let r : ChildRec :=
      ⟨nextChildId db, some c.name, some c.age, c.parent_id, some c.hobby⟩
    .ok (⟨db.parents, db.children ++ [r]⟩, r)
  else
    .error .integrityUnhandled

/-- `crud.get_parents`: `offset(skip).limit(limit).all()` over the parents
table (with `joinedload` of children); an empty page raises
`HTTPException(404, "No parents found")`. -/
def get_parents (db : DB) (skip limit : Nat) :
    Except ApiError (List ParentRec) :=
  let page := (db.parents.drop skip).take limit
  if page.isEmpty then .error (.http 404 "No parents found") else .ok page

/-- `crud.get_children`: `offset(skip).limit(limit).all()` over the children
table; an empty page raises `HTTPException(404, "No children found")`. -/
def get_children (db : DB) (skip limit : Nat) :
    Except ApiError (List ChildRec) :=
  let page := (db.children.drop skip).take limit
  if page.isEmpty then .error (.http 404 "No children found") else .ok page

/-- `crud.get_specific_parent`: first row with the given id, else 404. -/
def get_specific_parent (db : DB) (parent_id : Nat) :
    Except ApiError ParentRec :=
  match db.parents.find? (fun p => p.id == parent_id) with
  | some p => .ok p
  | none => .error (.http 404 "There is no parent with this id")

/-- `crud.get_specific_child`: first row with the given id, else 404. -/
def get_specific_child (db : DB) (child_id : Nat) :
    Except ApiError ChildRec :=
  match db.children.find? (fun c => c.id == child_id) with
  | some c => .ok c
  | none => .error (.http 404 "There is no child with this id")

/-- The row produced by `update_parent`'s loop
`for key, value in parent_update.model_dump().items(): setattr(...)` —
`model_dump()` contains every schema field (`None` for omitted ones), so
every attribute is overwritten with the update's value verbatim. -/
def applyParentUpdate (old : ParentRec) (u : ParentUpdate) : ParentRec :=
  ⟨old.id, u.name, u.age, u.email, u.address⟩

/-- The row produced by `update_child`'s `setattr` loop over
`child_update.model_dump()`: name, age and hobby are overwritten verbatim;
`parent_id` is not in the schema, so it is untouched. -/
def applyChildUpdate (old : ChildRec) (u : ChildUpdate) : ChildRec :=
  ⟨old.id, u.name, u.age, old.parent_id, u.hobby⟩

/-- `crud.update_parent`: 404 when no row has the id; otherwise overwrite all
schema attributes and commit.  The commit raises `IntegrityError` both for a
duplicate unique email and for writing `NULL` into any of the
`nullable=False` columns `name`/`age`/`email`/`address` (`models.Parent`),
i.e. whenever the request omitted one of the optional schema fields; the
function catches every `IntegrityError`, rolls back (the row keeps its
previous values) and raises `HTTPException(400, "Parent with this email
already exists.")` — that one message whatever the actual violation. -/
def update_parent (db : DB) (parent_id : Nat) (u : ParentUpdate) :
    Except ApiError (DB × ParentRec) :=
  match db.parents.find? (fun p => p.id == parent_id) with
  | none => .error (.http 404 "Parent not found")
  | some old =>
    let r := applyParentUpdate old u
    if db.parents.any
        (fun q => !(q.id == parent_id) && u.email.isSome && q.email == u.email)
      || u.name.isNone || u.age.isNone || u.email.isNone || u.address.isNone
    then
      .error (.http 400 "Parent with this email already exists.")
    else
      .ok (⟨db.parents.map (fun p => if p.id == parent_id then r else p),
            db.children⟩, r)

/-- `crud.update_child`: 404 when no row has the id; otherwise overwrite the
schema attributes and commit.  `models.Child` declares `name` and `age`
`nullable=False` while `hobby` is nullable: a request omitting `name` or
`age` makes the commit raise `IntegrityError`, which — unlike in
`update_parent` — nothing catches (the transaction aborts, the row keeps its
previous values, FastAPI answers 500); omitting only `hobby` commits fine
and stores `NULL`.  Children have no unique constraint. -/
def update_child (db : DB) (child_id : Nat) (u : ChildUpdate) :
    Except ApiError (DB × ChildRec) :=
  match db.children.find? (fun c => c.id == child_id) with
  | none => .error (.http 404 "Child not found")
  | some old =>
    let r := applyChildUpdate old u
    if u.name.isNone || u.age.isNone then
      .error .integrityUnhandled
    else
      .ok (⟨db.parents,
            db.children.map (fun c => if c.id == child_id then r else c)⟩, r)

/-- `crud.delete_parent`: 404 when no row has the id; otherwise delete the
row and commit.  The `Parent.children` relationship carries
`cascade="all, delete-orphan"` (and the FK `ondelete="CASCADE"`), so every
child row referencing the parent is deleted too.  Returns the success
detail message. -/
def delete_parent (db : DB) (parent_id : Nat) :
    Except ApiError (DB × String) :=
  match db.parents.find? (fun p => p.id == parent_id) with
  | none => .error (.http 404 "Parent not found")
  | some _ =>
    .ok (⟨db.parents.filter (fun p => !(p.id == parent_id)),
          db.children.filter (fun c => !(c.parent_id == parent_id))⟩,
         "Parent with ID " ++ toString parent_id ++ " deleted successfully")

/-- `crud.delete_child`: 404 when no row has the id; otherwise delete the row
and commit.  Returns the success detail message. -/
def delete_child (db : DB) (child_id : Nat) :
    Except ApiError (DB × String) :=
  match db.children.find? (fun c => c.id == child_id) with
  | none => .error (.http 404 "Child not found")
  | some _ =>
    .ok (⟨db.parents, db.children.filter (fun c => !(c.id == child_id))⟩,
         "Child with ID " ++ toString child_id ++ " deleted successfully")

end crud

deriving instance DecidableEq for Except

/-- Result of a list-read endpoint: the outcome (serialized response body on
success), the cache afterwards, and whether a persistence-store query was
issued during the request. -/
structure ReadOutcome where
  result : Except ApiError String
  cache : Cache
  dbQueried : Bool
deriving DecidableEq, Repr

/-- Result of a mutation endpoint: the outcome, and the persistence store and
cache afterwards. -/
structure MutOutcome (α : Type) where
  result : Except ApiError α
  db : DB
  cache : Cache
deriving DecidableEq, Repr

namespace routes

/-- `POST /parents/`: `crud.create_parent`, then
`delete_keys_by_pattern("parents:*")`.  An exception from either step
propagates; the crud commit has already happened when invalidation runs. -/
def create_parent (db : DB) (c : Cache) (p : ParentCreate) :
    MutOutcome ParentRec :=
  match crud.create_parent db p with
  | .error e => ⟨.error e, db, c⟩
  | .ok (db', r) =>
    match delete_keys_by_pattern c "parents:*" with
    | .error _ => ⟨.error .cacheDown, db', c⟩
    | .ok c' => ⟨.ok r, db', c'⟩

/-- `POST /children/`: `crud.create_child`, then
`delete_keys_by_pattern("children:*")` and
`delete_keys_by_pattern("parents:*")`. -/
def create_child (db : DB) (c : Cache) (ch : ChildCreate) :
    MutOutcome ChildRec :=
  match crud.create_child db ch with
  | .error e => ⟨.error e, db, c⟩
  | .ok (db', r) =>
    match delete_keys_by_pattern c "children:*" with
    | .error _ => ⟨.error .cacheDown, db', c⟩
    | .ok c1 =>
      match delete_keys_by_pattern c1 "parents:*" with
      | .error _ => ⟨.error .cacheDown, db', c1⟩
      | .ok c2 => ⟨.ok r, db', c2⟩

/-- `GET /parents/`: look up `"parents:{skip}:{limit}"`; on a truthy hit
return the deserialized cached payload without touching the persistence
store; on a miss query the page, serialize it through `schemas.Parent`,
store it with `ex=60*5` seconds, and return the live result (which FastAPI
serializes through the same schema). -/
def read_parents (db : DB) (c : Cache) (skip limit : Nat) : ReadOutcome :=
  let key := s!"parents:{skip}:{limit}"
  match c.get key with
  | .error _ => ⟨.error .cacheDown, c, false⟩
  | .ok cached =>
    if pyTruthy cached then ⟨.ok (cached.getD ""), c, false⟩
    else
      match crud.get_parents db skip limit with
      | .error e => ⟨.error e, c, true⟩
      | .ok page =>
        let payload := serializeParents db page
        match c.set key payload (60 * 5) with
        | .error _ => ⟨.error .cacheDown, c, true⟩
        | .ok c' => ⟨.ok payload, c', true⟩

/-- `GET /children/`: same shape as `read_parents` over the children table
and the `"children:{skip}:{limit}"` key. -/
def read_children (db : DB) (c : Cache) (skip limit : Nat) : ReadOutcome :=
  let key := s!"children:{skip}:{limit}"
  match c.get key with
  | .error _ => ⟨.error .cacheDown, c, false⟩
  | .ok cached =>
    if pyTruthy cached then ⟨.ok (cached.getD ""), c, false⟩
    else
      match crud.get_children db skip limit with
      | .error e => ⟨.error e, c, true⟩
      | .ok page =>
        let payload := serializeChildren page
        match c.set key payload (60 * 5) with
        | .error _ => ⟨.error .cacheDown, c, true⟩
        | .ok c' => ⟨.ok payload, c', true⟩

/-- `GET /parents/{parent_id}`: plain `crud.get_specific_parent`, no cache. -/
def read_specific_parent (db : DB) (parent_id : Nat) :
    Except ApiError ParentRec :=
  crud.get_specific_parent db parent_id

/-- `GET /children/{child_id}`: plain `crud.get_specific_child`, no cache. -/
def read_specific_child (db : DB) (child_id : Nat) :
    Except ApiError ChildRec :=
  crud.get_specific_child db child_id

/-- `PUT /parents/{parent_id}`: `crud.update_parent`, then
`delete_keys_by_pattern("parents:*")`. -/
def update_parent (db : DB) (c : Cache) (parent_id : Nat) (u : ParentUpdate) :
    MutOutcome ParentRec :=
  match crud.update_parent db parent_id u with
  | .error e => ⟨.error e, db, c⟩
  | .ok (db', r) =>
    match delete_keys_by_pattern c "parents:*" with
    | .error _ => ⟨.error .cacheDown, db', c⟩
    | .ok c' => ⟨.ok r, db', c'⟩

/-- `PUT /children/{child_id}`: `crud.update_child`, then
`delete_keys_by_pattern("children:*")` and
`delete_keys_by_pattern("parents:*")`. -/
def update_child (db : DB) (c : Cache) (child_id : Nat) (u : ChildUpdate) :
    MutOutcome ChildRec :=
  match crud.update_child db child_id u with
  | .error e => ⟨.error e, db, c⟩
  | .ok (db', r) =>
    match delete_keys_by_pattern c "children:*" with
    | .error _ => ⟨.error .cacheDown, db', c⟩
    | .ok c1 =>
      match delete_keys_by_pattern c1 "parents:*" with
      | .error _ => ⟨.error .cacheDown, db', c1⟩
      | .ok c2 => ⟨.ok r, db', c2⟩

/-- `DELETE /parents/{parent_id}`: `crud.delete_parent`, then
`delete_keys_by_pattern("children:*")` and
`delete_keys_by_pattern("parents:*")`.  The success value is the
`detail` message of the response dict. -/
def delete_parent (db : DB) (c : Cache) (parent_id : Nat) :
    MutOutcome String :=
  match crud.delete_parent db parent_id with
  | .error e => ⟨.error e, db, c⟩
  | .ok (db', msg) =>
    match delete_keys_by_pattern c "children:*" with
    | .error _ => ⟨.error .cacheDown, db', c⟩
    | .ok c1 =>
      match delete_keys_by_pattern c1 "parents:*" with
      | .error _ => ⟨.error .cacheDown, db', c1⟩
      | .ok c2 => ⟨.ok msg, db', c2⟩

/-- `DELETE /children/{child_id}`: `crud.delete_child`, then
`delete_keys_by_pattern("children:*")` and
`delete_keys_by_pattern("parents:*")`. -/
def delete_child (db : DB) (c : Cache) (child_id : Nat) :
    MutOutcome String :=
  match crud.delete_child db child_id with
  | .error e => ⟨.error e, db, c⟩
  | .ok (db', msg) =>
    match delete_keys_by_pattern c "children:*" with
    | .error _ => ⟨.error .cacheDown, db', c⟩
    | .ok c1 =>
      match delete_keys_by_pattern c1 "parents:*" with
      | .error _ => ⟨.error .cacheDown, db', c1⟩
      | .ok c2 => ⟨.ok msg, db', c2⟩

end routes

/-! ### Helper lemmas -/

/-- The glob `"parents:*"` matches exactly the keys with prefix
`"parents:"`. -/
theorem matchesPat_parents (k : String) :
    matchesPat "parents:*" k = strPre "parents:" k := by
  simp [matchesPat, strPre]

/-- The glob `"children:*"` matches exactly the keys with prefix
`"children:"`. -/
theorem matchesPat_children (k : String) :
    matchesPat "children:*" k = strPre "children:" k := by
  simp [matchesPat, strPre]

/-- A key starting with `"children:"` does not start with `"parents:"`. -/
theorem strPre_children_not_parents (k : String)
    (h : strPre "children:" k = true) : strPre "parents:" k = false := by
  unfold strPre at h ⊢
  rw [show "children:".data = ['c','h','i','l','d','r','e','n',':'] from rfl]
    at h
  rw [show "parents:".data = ['p','a','r','e','n','t','s',':'] from rfl]
  cases hd : k.data with
  | nil => rw [hd] at h; simp [List.isPrefixOf] at h
  | cons a t =>
    rw [hd] at h
    simp [List.isPrefixOf] at h ⊢
    intro hp
    rw [← hp] at h
    simp at h

/-- A successful pattern delete on a reachable server filters the keyspace. -/
theorem delete_keys_by_pattern_ok (c : Cache) (pat : String)
    (hav : c.available = true) :
    delete_keys_by_pattern c pat =
      .ok { c with
            entries := c.entries.filter (fun e => !(matchesPat pat e.key)) } := by
  simp [delete_keys_by_pattern, hav]

/-- A serialized list payload is never the empty string (it starts with a
bracket), hence always truthy once stored. -/
theorem encodeList_ne_empty (xs : List String) : encodeList xs ≠ "" := by
  intro h
  have hlen := congrArg String.length h
  rw [encodeList] at hlen
  rw [String.length_append, String.length_append] at hlen
  simp [show "[".length = 1 from rfl, show "]".length = 1 from rfl,
    show String.length "" = 0 from rfl] at hlen

/-- `serializeParents` never produces the empty string. -/
theorem serializeParents_ne_empty (db : DB) (l : List ParentRec) :
    serializeParents db l ≠ "" :=
  encodeList_ne_empty _

/-- `serializeChildren` never produces the empty string. -/
theorem serializeChildren_ne_empty (l : List ChildRec) :
    serializeChildren l ≠ "" :=
  encodeList_ne_empty _

/-- `find?` over an in-place map-update returns the updated row, provided
some row matched and the updated row still matches. -/
theorem find?_map_update {α : Type} (pred : α → Bool) (r : α) (l : List α)
    (hr : pred r = true) (hl : (l.find? pred).isSome = true) :
    (l.map (fun p => if pred p then r else p)).find? pred = some r := by
  induction l with
  | nil => simp at hl
  | cons x xs ih =>
    by_cases hx : pred x = true
    · simp [hx, hr]
    · simp only [Bool.not_eq_true] at hx
      simp [hx] at hl
      simp [hx, hl, ih]

/-! ### Concrete fixtures for witnesses and counterexamples -/

/-- A stored parent row. -/
def pRec : ParentRec := ⟨1, some "A", some 40, some "a@x.com", some "Y"⟩

/-- A stored child row owned by `pRec`. -/
def cRec : ChildRec := ⟨1, some "C", some 8, 1, some "Soccer"⟩

/-- A small database: one parent owning one child. -/
def db0 : DB := ⟨[pRec], [cRec]⟩

/-- A reachable cache populated for both kinds plus an unrelated key. -/
def cache0 : Cache :=
  ⟨[⟨"parents:0:100", "[p]", 300⟩, ⟨"children:0:100", "[c]", 300⟩,
    ⟨"other", "z", 300⟩], true⟩

/-- An unreachable cache server. -/
def cacheDown0 : Cache := ⟨[⟨"parents:0:100", "[p]", 300⟩], false⟩

/-- A fresh, empty, reachable cache. -/
def cacheEmpty : Cache := ⟨[], true⟩

/-- A valid new-parent payload. -/
def pc0 : ParentCreate := ⟨"B", 30, "b@x.com", "Z"⟩

/-- A new-parent payload whose email duplicates `pRec`'s. -/
def pcDup : ParentCreate := ⟨"B", 30, "a@x.com", "Z"⟩

/-- A valid new-child payload referencing `pRec`. -/
def cc0 : ChildCreate := ⟨"D", 5, "Chess", 1⟩

/-- A new-child payload whose `parent_id` resolves to no parent. -/
def ccBad : ChildCreate := ⟨"D", 5, "Chess", 999999⟩

/-- A parent update that supplies only `age`, omitting the other fields. -/
def puPartial : ParentUpdate := ⟨none, some 30, none, none⟩

/-- A child update that supplies only `name`. -/
def cuPartial : ChildUpdate := ⟨some "E", none, none⟩

/-! ### Claims -/

/-- C1: every mutation endpoint performs exactly the prescribed cache
invalidation on success: create Parent and update Parent remove exactly the
cache keys with prefix `"parents:"`; create Child, update Child, delete Child
and delete Parent remove exactly the keys with prefix `"children:"` together
with those with prefix `"parents:"` — across all pagination windows (every
matching key, whatever its `skip`/`limit`), unconditionally whenever the
request succeeds. -/
theorem C1_invalidation_mapping :
    (∀ db c p, (routes.create_parent db c p).result.isOk = true →
      (routes.create_parent db c p).cache.entries =
        c.entries.filter (fun e => !(strPre "parents:" e.key))) ∧
    (∀ db c pid u, (routes.update_parent db c pid u).result.isOk = true →
      (routes.update_parent db c pid u).cache.entries =
        c.entries.filter (fun e => !(strPre "parents:" e.key))) ∧
    (∀ db c ch, (routes.create_child db c ch).result.isOk = true →
      (routes.create_child db c ch).cache.entries =
        c.entries.filter (fun e =>
          !(strPre "parents:" e.key) && !(strPre "children:" e.key))) ∧
    (∀ db c cid u, (routes.update_child db c cid u).result.isOk = true →
      (routes.update_child db c cid u).cache.entries =
        c.entries.filter (fun e =>
          !(strPre "parents:" e.key) && !(strPre "children:" e.key))) ∧
    (∀ db c cid, (routes.delete_child db c cid).result.isOk = true →
      (routes.delete_child db c cid).cache.entries =
        c.entries.filter (fun e =>
          !(strPre "parents:" e.key) && !(strPre "children:" e.key))) ∧
    (∀ db c pid, (routes.delete_parent db c pid).result.isOk = true →
      (routes.delete_parent db c pid).cache.entries =
        c.entries.filter (fun e =>
          !(strPre "parents:" e.key) && !(strPre "children:" e.key))) := by
  refine ⟨?_, ?_, ?_, ?_, ?_, ?_⟩
  · intro db c p hok
    cases hcr : crud.create_parent db p with
    | error e => simp [routes.create_parent, hcr, Except.isOk, Except.toBool] at hok
    | ok pr =>
      obtain ⟨db', r⟩ := pr
      by_cases hav : c.available = true
      · simp [routes.create_parent, hcr, delete_keys_by_pattern, hav,
          matchesPat_parents]
      · simp only [Bool.not_eq_true] at hav
        simp [routes.create_parent, hcr, delete_keys_by_pattern, hav, Except.isOk, Except.toBool] at hok
  · intro db c pid u hok
    cases hcr : crud.update_parent db pid u with
    | error e => simp [routes.update_parent, hcr, Except.isOk, Except.toBool] at hok
    | ok pr =>
      obtain ⟨db', r⟩ := pr
      by_cases hav : c.available = true
      · simp [routes.update_parent, hcr, delete_keys_by_pattern, hav,
          matchesPat_parents]
      · simp only [Bool.not_eq_true] at hav
        simp [routes.update_parent, hcr, delete_keys_by_pattern, hav, Except.isOk, Except.toBool] at hok
  · intro db c ch hok
    cases hcr : crud.create_child db ch with
    | error e => simp [routes.create_child, hcr, Except.isOk, Except.toBool] at hok
    | ok pr =>
      obtain ⟨db', r⟩ := pr
      by_cases hav : c.available = true
      · simp [routes.create_child, hcr, delete_keys_by_pattern, hav,
          matchesPat_parents, matchesPat_children, List.filter_filter]
      · simp only [Bool.not_eq_true] at hav
        simp [routes.create_child, hcr, delete_keys_by_pattern, hav, Except.isOk, Except.toBool] at hok
  · intro db c cid u hok
    cases hcr : crud.update_child db cid u with
    | error e => simp [routes.update_child, hcr, Except.isOk, Except.toBool] at hok
    | ok pr =>
      obtain ⟨db', r⟩ := pr
      by_cases hav : c.available = true
      · simp [routes.update_child, hcr, delete_keys_by_pattern, hav,
          matchesPat_parents, matchesPat_children, List.filter_filter]
      · simp only [Bool.not_eq_true] at hav
        simp [routes.update_child, hcr, delete_keys_by_pattern, hav, Except.isOk, Except.toBool] at hok
  · intro db c cid hok
    cases hcr : crud.delete_child db cid with
    | error e => simp [routes.delete_child, hcr, Except.isOk, Except.toBool] at hok
    | ok pr =>
      obtain ⟨db', msg⟩ := pr
      by_cases hav : c.available = true
      · simp [routes.delete_child, hcr, delete_keys_by_pattern, hav,
          matchesPat_parents, matchesPat_children, List.filter_filter]
      · simp only [Bool.not_eq_true] at hav
        simp [routes.delete_child, hcr, delete_keys_by_pattern, hav, Except.isOk, Except.toBool] at hok
  · intro db c pid hok
    cases hcr : crud.delete_parent db pid with
    | error e => simp [routes.delete_parent, hcr, Except.isOk, Except.toBool] at hok
    | ok pr =>
      obtain ⟨db', msg⟩ := pr
      by_cases hav : c.available = true
      · simp [routes.delete_parent, hcr, delete_keys_by_pattern, hav,
          matchesPat_parents, matchesPat_children, List.filter_filter]
      · simp only [Bool.not_eq_true] at hav
        simp [routes.delete_parent, hcr, delete_keys_by_pattern, hav, Except.isOk, Except.toBool] at hok

/-- C1 witness: on the concrete populated cache, a successful parent create
drops exactly the `parents:` keys and a successful parent delete drops both
prefixes, keeping the unrelated key. -/
theorem C1_invalidation_mapping_witness :
    (routes.create_parent db0 cache0 pc0).cache.entries =
      [⟨"children:0:100", "[c]", 300⟩, ⟨"other", "z", 300⟩] ∧
    (routes.delete_parent db0 cache0 1).cache.entries =
      [⟨"other", "z", 300⟩] := by
  constructor
  · have h := C1_invalidation_mapping.1 db0 cache0 pc0 (by decide)
    rw [h]; decide
  · have h := C1_invalidation_mapping.2.2.2.2.2 db0 cache0 1 (by decide)
    rw [h]; decide

/-- The miss path of `GET /parents/` on a reachable cache and a non-empty
page: query, serialize, write back under the window key with a 300-second
TTL, return the serialized live page. -/
theorem read_parents_miss (db : DB) (c : Cache) (skip limit : Nat)
    (hav : c.available = true)
    (hmiss : pyTruthy (c.lookup (s!"parents:{skip}:{limit}")) = false)
    (hpage : ((db.parents.drop skip).take limit).isEmpty = false) :
    routes.read_parents db c skip limit =
      ⟨.ok (serializeParents db ((db.parents.drop skip).take limit)),
       { c with entries :=
           (c.setEntries (s!"parents:{skip}:{limit}")
             (serializeParents db ((db.parents.drop skip).take limit)) 300) },
       true⟩ := by
  simp [routes.read_parents, Cache.get, hav, hmiss, crud.get_parents, hpage,
    Cache.set]

/-- The miss path of `GET /children/`, same shape as `read_parents_miss`. -/
theorem read_children_miss (db : DB) (c : Cache) (skip limit : Nat)
    (hav : c.available = true)
    (hmiss : pyTruthy (c.lookup (s!"children:{skip}:{limit}")) = false)
    (hpage : ((db.children.drop skip).take limit).isEmpty = false) :
    routes.read_children db c skip limit =
      ⟨.ok (serializeChildren ((db.children.drop skip).take limit)),
       { c with entries :=
           (c.setEntries (s!"children:{skip}:{limit}")
             (serializeChildren ((db.children.drop skip).take limit)) 300) },
       true⟩ := by
  simp [routes.read_children, Cache.get, hav, hmiss, crud.get_children, hpage,
    Cache.set]

/-- C2: on a reachable cache, a non-empty entry under the window key makes
the list read return that deserialized payload with no persistence-store
query and no cache change, for both kinds; after a single write-back the
next identical GET is such a hit and returns the byte-identical payload with
the cache unchanged; and every stored write-back value is non-empty (so the
non-emptiness proviso covers every entry the system writes). -/
theorem C2_cache_hit_bypasses_db :
    (∀ db c skip limit v, c.available = true →
      c.lookup (s!"parents:{skip}:{limit}") = some v → v ≠ "" →
      routes.read_parents db c skip limit = ⟨.ok v, c, false⟩) ∧
    (∀ db c skip limit v, c.available = true →
      c.lookup (s!"children:{skip}:{limit}") = some v → v ≠ "" →
      routes.read_children db c skip limit = ⟨.ok v, c, false⟩) ∧
    (∀ db c skip limit, c.available = true →
      pyTruthy (c.lookup (s!"parents:{skip}:{limit}")) = false →
      ((db.parents.drop skip).take limit).isEmpty = false →
      routes.read_parents db
          (routes.read_parents db c skip limit).cache skip limit =
        ⟨(routes.read_parents db c skip limit).result,
         (routes.read_parents db c skip limit).cache, false⟩) ∧
    (∀ db l, serializeParents db l ≠ "") ∧
    (∀ l, serializeChildren l ≠ "") := by
  refine ⟨?_, ?_, ?_, serializeParents_ne_empty, serializeChildren_ne_empty⟩
  · intro db c skip limit v hav hlook hv
    simp [routes.read_parents, Cache.get, hav, hlook, pyTruthy, hv]
  · intro db c skip limit v hav hlook hv
    simp [routes.read_children, Cache.get, hav, hlook, pyTruthy, hv]
  · intro db c skip limit hav hmiss hpage
    rw [read_parents_miss db c skip limit hav hmiss hpage]
    have hne := serializeParents_ne_empty db ((db.parents.drop skip).take limit)
    simp [routes.read_parents, Cache.get, Cache.lookup, Cache.setEntries,
      pyTruthy, hav, hne]

/-- C2 witness: on the populated concrete cache, `GET /parents/?skip=0&limit=100`
returns the cached payload, queries nothing, and changes nothing. -/
theorem C2_cache_hit_bypasses_db_witness :
    routes.read_parents db0 cache0 0 100 = ⟨.ok "[p]", cache0, false⟩ := by
  have h := C2_cache_hit_bypasses_db.1 db0 cache0 0 100 "[p]"
    (by decide) (by decide) (by decide)
  exact h

/-- C3: on a cache miss with a non-empty page, the list read queries the
page (insertion order, sliced by skip/limit), serializes it through the same
schema encoding used for direct responses (`serializeParents` /
`serializeChildren` model both), stores the payload under
`"<kind>:<skip>:<limit>"` with a TTL of exactly 300 seconds (`ex=60*5`), and
returns the serialization of the live query result. -/
theorem C3_miss_writes_back :
    (∀ db c skip limit, c.available = true →
      pyTruthy (c.lookup (s!"parents:{skip}:{limit}")) = false →
      ((db.parents.drop skip).take limit).isEmpty = false →
      routes.read_parents db c skip limit =
        ⟨.ok (serializeParents db ((db.parents.drop skip).take limit)),
         { c with entries :=
             (c.setEntries (s!"parents:{skip}:{limit}")
               (serializeParents db ((db.parents.drop skip).take limit)) 300) },
         true⟩) ∧
    (∀ db c skip limit, c.available = true →
      pyTruthy (c.lookup (s!"children:{skip}:{limit}")) = false →
      ((db.children.drop skip).take limit).isEmpty = false →
      routes.read_children db c skip limit =
        ⟨.ok (serializeChildren ((db.children.drop skip).take limit)),
         { c with entries :=
             (c.setEntries (s!"children:{skip}:{limit}")
               (serializeChildren ((db.children.drop skip).take limit)) 300) },
         true⟩) :=
  ⟨read_parents_miss, read_children_miss⟩

/-- C3 witness: a miss on the empty cache with the one-parent store writes
back the serialized page with TTL 300 and returns it. -/
theorem C3_miss_writes_back_witness :
    routes.read_parents db0 cacheEmpty 0 100 =
      ⟨.ok (serializeParents db0 ((db0.parents.drop 0).take 100)),
       { cacheEmpty with entries :=
           (cacheEmpty.setEntries "parents:0:100"
             (serializeParents db0 ((db0.parents.drop 0).take 100)) 300) },
       true⟩ := by
  have h := C3_miss_writes_back.1 db0 cacheEmpty 0 100
    (by decide) (by decide) (by decide)
  exact h

/-- C5: for every window, on a cache miss whose selected page is empty —
whether the table is empty or skip/limit merely select no rows — the list
read fails with `HTTPException(404, ...)` raised by `crud.get_parents` /
`crud.get_children`, and the cache is left exactly as it was (the `set`
call is never reached). -/
theorem C5_empty_page_404 :
    (∀ db c skip limit, c.available = true →
      pyTruthy (c.lookup (s!"parents:{skip}:{limit}")) = false →
      ((db.parents.drop skip).take limit).isEmpty = true →
      routes.read_parents db c skip limit =
        ⟨.error (.http 404 "No parents found"), c, true⟩) ∧
    (∀ db c skip limit, c.available = true →
      pyTruthy (c.lookup (s!"children:{skip}:{limit}")) = false →
      ((db.children.drop skip).take limit).isEmpty = true →
      routes.read_children db c skip limit =
        ⟨.error (.http 404 "No children found"), c, true⟩) := by
  constructor
  · intro db c skip limit hav hmiss hpage
    simp [routes.read_parents, Cache.get, hav, hmiss, crud.get_parents, hpage]
  · intro db c skip limit hav hmiss hpage
    simp [routes.read_children, Cache.get, hav, hmiss, crud.get_children, hpage]

/-- C5 witness: with an entirely empty store, `GET /parents/` is a 404 and
the (empty) cache is untouched; on the one-parent store, a window past the
data (`skip=5`) gives the same 404 for `GET /children/`. -/
theorem C5_empty_page_404_witness :
    routes.read_parents (⟨[], []⟩ : DB) cacheEmpty 0 100 =
      ⟨.error (.http 404 "No parents found"), cacheEmpty, true⟩ ∧
    routes.read_children db0 cacheEmpty 5 100 =
      ⟨.error (.http 404 "No children found"), cacheEmpty, true⟩ := by
  constructor
  · exact C5_empty_page_404.1 ⟨[], []⟩ cacheEmpty 0 100
      (by decide) (by decide) (by decide)
  · exact C5_empty_page_404.2 db0 cacheEmpty 5 100
      (by decide) (by decide) (by decide)

/-- C4 fails on the code: nothing in `routes.py` catches a Redis
`ConnectionError`.  At the concrete unreachable-cache state: the create
mutation commits to the persistence store (a second parent row appears) yet
the request terminates with the propagated cache error (status 500) instead
of reporting success, and the list read terminates with the same error
without ever falling back to a persistence-store query (`dbQueried` stays
false). -/
theorem C4_cache_error_propagates :
    (routes.create_parent db0 cacheDown0 pc0).result = .error .cacheDown ∧
    (routes.create_parent db0 cacheDown0 pc0).db =
      ⟨[pRec, ⟨2, some "B", some 30, some "b@x.com", some "Z"⟩], [cRec]⟩ ∧
    ApiError.cacheDown.status = 500 ∧
    (routes.read_parents db0 cacheDown0 0 100).result = .error .cacheDown ∧
    (routes.read_parents db0 cacheDown0 0 100).dbQueried = false := by
  decide

/-- C6 fails on the code: `crud.create_child` has no
`except IntegrityError` handler (unlike `crud.create_parent`), so a
`parent_id` resolving to no parent makes the commit's `IntegrityError`
escape uncaught and the request answers 500, not a 4xx `ConstraintError`.
The child is indeed not created and the cache is untouched. -/
theorem C6_fk_violation_unhandled :
    (routes.create_child db0 cache0 ccBad).result =
      .error .integrityUnhandled ∧
    (routes.create_child db0 cache0 ccBad).db = db0 ∧
    (routes.create_child db0 cache0 ccBad).cache = cache0 ∧
    ApiError.integrityUnhandled.status = 500 ∧
    ¬(ApiError.integrityUnhandled.status < 500) := by
  decide

/-- C7: whenever the crud layer fails with an `HTTPException` — 404 for a
missing id, 400 for a duplicate unique email — the route surfaces exactly
that error and performs no cache invalidation and no cache population: the
outcome carries the original store and cache unchanged, for every mutation
endpoint. -/
theorem C7_crud_failure_leaves_cache_alone :
    (∀ db c p e, crud.create_parent db p = .error e →
      routes.create_parent db c p = ⟨.error e, db, c⟩) ∧
    (∀ db c ch e, crud.create_child db ch = .error e →
      routes.create_child db c ch = ⟨.error e, db, c⟩) ∧
    (∀ db c pid u e, crud.update_parent db pid u = .error e →
      routes.update_parent db c pid u = ⟨.error e, db, c⟩) ∧
    (∀ db c cid u e, crud.update_child db cid u = .error e →
      routes.update_child db c cid u = ⟨.error e, db, c⟩) ∧
    (∀ db c pid e, crud.delete_parent db pid = .error e →
      routes.delete_parent db c pid = ⟨.error e, db, c⟩) ∧
    (∀ db c cid e, crud.delete_child db cid = .error e →
      routes.delete_child db c cid = ⟨.error e, db, c⟩) := by
  refine ⟨?_, ?_, ?_, ?_, ?_, ?_⟩
  · intro db c p e h
    simp [routes.create_parent, h]
  · intro db c ch e h
    simp [routes.create_child, h]
  · intro db c pid u e h
    simp [routes.update_parent, h]
  · intro db c cid u e h
    simp [routes.update_child, h]
  · intro db c pid e h
    simp [routes.delete_parent, h]
  · intro db c cid e h
    simp [routes.delete_child, h]

/-- C7 witness: a duplicate-email create answers 400 and leaves the
populated cache exactly as it was; an update of a nonexistent parent answers
404 with the same frame. -/
theorem C7_crud_failure_leaves_cache_alone_witness :
    routes.create_parent db0 cache0 pcDup =
      ⟨.error (.http 400 "Parent with this email already exists."),
       db0, cache0⟩ ∧
    routes.update_parent db0 cache0 999 puPartial =
      ⟨.error (.http 404 "Parent not found"), db0, cache0⟩ := by
  constructor
  · exact C7_crud_failure_leaves_cache_alone.1 db0 cache0 pcDup
      (.http 400 "Parent with this email already exists.") (by decide)
  · exact C7_crud_failure_leaves_cache_alone.2.2.1 db0 cache0 999 puPartial
      (.http 404 "Parent not found") (by decide)

/-- C8: successful Parent creates and Parent updates never delete a cache
entry whose key starts with `"children:"` — every such entry present before
the mutation is still present after it (they invalidate only
`"parents:*"`). -/
theorem C8_parent_mutations_keep_children_keys :
    (∀ db c p e, (routes.create_parent db c p).result.isOk = true →
      e ∈ c.entries → strPre "children:" e.key = true →
      e ∈ (routes.create_parent db c p).cache.entries) ∧
    (∀ db c pid u e, (routes.update_parent db c pid u).result.isOk = true →
      e ∈ c.entries → strPre "children:" e.key = true →
      e ∈ (routes.update_parent db c pid u).cache.entries) := by
  constructor
  · intro db c p e hok hmem hpre
    cases hcr : crud.create_parent db p with
    | error err =>
      simp [routes.create_parent, hcr, Except.isOk, Except.toBool] at hok
    | ok pr =>
      obtain ⟨db', r⟩ := pr
      by_cases hav : c.available = true
      · simp [routes.create_parent, hcr, delete_keys_by_pattern, hav,
          matchesPat_parents, List.mem_filter]
        exact ⟨hmem, by simp [strPre_children_not_parents e.key hpre]⟩
      · simp only [Bool.not_eq_true] at hav
        simp [routes.create_parent, hcr, delete_keys_by_pattern, hav,
          Except.isOk, Except.toBool] at hok
  · intro db c pid u e hok hmem hpre
    cases hcr : crud.update_parent db pid u with
    | error err =>
      simp [routes.update_parent, hcr, Except.isOk, Except.toBool] at hok
    | ok pr =>
      obtain ⟨db', r⟩ := pr
      by_cases hav : c.available = true
      · simp [routes.update_parent, hcr, delete_keys_by_pattern, hav,
          matchesPat_parents, List.mem_filter]
        exact ⟨hmem, by simp [strPre_children_not_parents e.key hpre]⟩
      · simp only [Bool.not_eq_true] at hav
        simp [routes.update_parent, hcr, delete_keys_by_pattern, hav,
          Except.isOk, Except.toBool] at hok

/-- C8 witness: after the concrete successful parent create, the
`children:0:100` entry of the populated cache is still present. -/
theorem C8_parent_mutations_keep_children_keys_witness :
    (⟨"children:0:100", "[c]", 300⟩ : CacheEntry) ∈
      (routes.create_parent db0 cache0 pc0).cache.entries := by
  exact C8_parent_mutations_keep_children_keys.1 db0 cache0 pc0
    ⟨"children:0:100", "[c]", 300⟩ (by decide) (by decide) (by decide)

/-- C9: deleting a parent that exists (in particular one owning children)
succeeds with the detail message `"Parent with ID {parent_id} deleted
successfully"`, and cascades: afterwards the single-entity lookup of the
parent is a 404, and the single-entity lookup of every child the parent
owned is a 404 (child ids are unique in the store, as the primary key
guarantees). -/
theorem C9_delete_parent_cascade :
    ∀ db c pid, c.available = true →
    (db.parents.find? (fun p => p.id == pid)).isSome = true →
    (db.children.map (fun ch => ch.id)).Nodup →
    (routes.delete_parent db c pid).result =
      .ok ("Parent with ID " ++ toString pid ++ " deleted successfully") ∧
    routes.read_specific_parent (routes.delete_parent db c pid).db pid =
      .error (.http 404 "There is no parent with this id") ∧
    (∀ ch ∈ db.children, ch.parent_id = pid →
      routes.read_specific_child (routes.delete_parent db c pid).db ch.id =
        .error (.http 404 "There is no child with this id")) := by
  intro db c pid hav hfind hnodup
  obtain ⟨p0, hp0⟩ := Option.isSome_iff_exists.mp hfind
  have hcrud : crud.delete_parent db pid =
      .ok (⟨db.parents.filter (fun p => !(p.id == pid)),
            db.children.filter (fun ch => !(ch.parent_id == pid))⟩,
           "Parent with ID " ++ toString pid ++ " deleted successfully") := by
    simp [crud.delete_parent, hp0]
  have hdb : (routes.delete_parent db c pid).db =
      ⟨db.parents.filter (fun p => !(p.id == pid)),
       db.children.filter (fun ch => !(ch.parent_id == pid))⟩ := by
    simp [routes.delete_parent, hcrud, delete_keys_by_pattern, hav]
  refine ⟨?_, ?_, ?_⟩
  · simp [routes.delete_parent, hcrud, delete_keys_by_pattern, hav]
  · rw [hdb]
    have hnone : ((db.parents.filter (fun p => !(p.id == pid))).find?
        (fun p => p.id == pid)) = none := by
      rw [List.find?_eq_none]
      intro x hx
      have hq := (List.mem_filter.mp hx).2
      simpa using hq
    simp [routes.read_specific_parent, crud.get_specific_parent, hnone]
  · intro ch hch hpar
    rw [hdb]
    have hnone : ((db.children.filter (fun k => !(k.parent_id == pid))).find?
        (fun k => k.id == ch.id)) = none := by
      rw [List.find?_eq_none]
      intro x hx
      obtain ⟨hxmem, hxpar⟩ := List.mem_filter.mp hx
      intro hid
      have hxid : x.id = ch.id := by simpa using hid
      have hxe : x = ch :=
        List.inj_on_of_nodup_map hnodup hxmem hch hxid
      rw [hxe, hpar] at hxpar
      simp at hxpar
    simp [routes.read_specific_child, crud.get_specific_child, hnone]

/-- C9 witness: deleting parent 1 of the concrete store (which owns child 1)
returns the success message, and both the parent lookup and the owned
child's lookup 404 afterwards. -/
theorem C9_delete_parent_cascade_witness :
    (routes.delete_parent db0 cache0 1).result =
      .ok "Parent with ID 1 deleted successfully" ∧
    routes.read_specific_parent (routes.delete_parent db0 cache0 1).db 1 =
      .error (.http 404 "There is no parent with this id") ∧
    routes.read_specific_child (routes.delete_parent db0 cache0 1).db cRec.id =
      .error (.http 404 "There is no child with this id") := by
  have h := C9_delete_parent_cascade db0 cache0 1
    (by decide) (by decide) (by decide)
  exact ⟨h.1, h.2.1, h.2.2 cRec (by decide) (by decide)⟩

/-- A child update supplying `name` and `age` but omitting the nullable
`hobby`. -/
def cuNoHobby : ChildUpdate := ⟨some "E", some 9, none⟩

/-- C10 as stated is false on the code: a PUT on parent 1 whose body
supplies only `age` — so `model_dump()` carries `None` for `name`, `email`
and `address` — does not leave those stored fields overwritten with `None`.
Writing `NULL` into the `nullable=False` columns makes the commit raise
`IntegrityError`; `update_parent` catches it, answers 400 and rolls back,
and the stored row still carries its previous values (`name = some "A"`,
not `none`). -/
theorem C10_partial_update_counterexample :
    routes.update_parent db0 cache0 1 puPartial =
      ⟨.error (.http 400 "Parent with this email already exists."),
       db0, cache0⟩ ∧
    db0.parents.find? (fun p => p.id == 1) = some pRec ∧
    pRec.name = some "A" := by
  decide

/-- C10 amended: the PUT handlers apply every field of the update schema —
partial updates are never merges — but the NOT NULL columns refuse the
`None` of an omitted field at commit.  (1)(2) On any successful update the
stored row's attributes are exactly the update's values verbatim, so the
Child's nullable `hobby` really is overwritten with `None` when omitted
(`parent_id`, absent from `ChildUpdate`, is the only attribute kept).
(3) A Parent update omitting any schema field fails with the
caught-`IntegrityError` 400 and stores nothing.  (4) A Child update
omitting `name` or `age` fails with an uncaught `IntegrityError` (HTTP 500)
and stores nothing. -/
theorem C10_update_overwrites_all_fields :
    (∀ db pid u db' r, crud.update_parent db pid u = .ok (db', r) →
      r.name = u.name ∧ r.age = u.age ∧ r.email = u.email ∧
        r.address = u.address ∧
        db'.parents.find? (fun p => p.id == pid) = some r) ∧
    (∀ db cid u db' r, crud.update_child db cid u = .ok (db', r) →
      r.name = u.name ∧ r.age = u.age ∧ r.hobby = u.hobby ∧
        db'.children.find? (fun ch => ch.id == cid) = some r) ∧
    (∀ db pid u old, db.parents.find? (fun p => p.id == pid) = some old →
      (u.name = none ∨ u.age = none ∨ u.email = none ∨ u.address = none) →
      crud.update_parent db pid u =
        .error (.http 400 "Parent with this email already exists.")) ∧
    (∀ db cid u old, db.children.find? (fun ch => ch.id == cid) = some old →
      (u.name = none ∨ u.age = none) →
      crud.update_child db cid u = .error .integrityUnhandled) := by
  refine ⟨?_, ?_, ?_, ?_⟩
  · intro db pid u db' r h
    cases hf : db.parents.find? (fun p => p.id == pid) with
    | none => simp [crud.update_parent, hf] at h
    | some old =>
      by_cases hc : (db.parents.any (fun q =>
            !(q.id == pid) && u.email.isSome && q.email == u.email)
          || u.name.isNone || u.age.isNone || u.email.isNone
          || u.address.isNone) = true
      · simp [crud.update_parent, hf, hc] at h
      · simp only [Bool.not_eq_true] at hc
        have hexp : crud.update_parent db pid u =
            .ok (⟨db.parents.map (fun p =>
                    if p.id == pid then crud.applyParentUpdate old u else p),
                  db.children⟩,
                 crud.applyParentUpdate old u) := by
          simp [crud.update_parent, hf, hc]
        rw [hexp] at h
        simp only [Except.ok.injEq, Prod.mk.injEq] at h
        obtain ⟨hdb', hr⟩ := h
        have hpred : (crud.applyParentUpdate old u).id == pid := by
          have := List.find?_some hf
          simpa [crud.applyParentUpdate] using this
        subst hdb' hr
        refine ⟨rfl, rfl, rfl, rfl, ?_⟩
        exact find?_map_update (fun p => p.id == pid)
          (crud.applyParentUpdate old u) db.parents hpred (by rw [hf]; rfl)
  · intro db cid u db' r h
    cases hf : db.children.find? (fun ch => ch.id == cid) with
    | none => simp [crud.update_child, hf] at h
    | some old =>
      by_cases hc : (u.name.isNone || u.age.isNone) = true
      · simp [crud.update_child, hf, hc] at h
      · simp only [Bool.not_eq_true] at hc
        have hexp : crud.update_child db cid u =
            .ok (⟨db.parents,
                  db.children.map (fun k =>
                    if k.id == cid then crud.applyChildUpdate old u else k)⟩,
                 crud.applyChildUpdate old u) := by
          simp [crud.update_child, hf, hc]
        rw [hexp] at h
        simp only [Except.ok.injEq, Prod.mk.injEq] at h
        obtain ⟨hdb', hr⟩ := h
        have hpred : (crud.applyChildUpdate old u).id == cid := by
          have := List.find?_some hf
          simpa [crud.applyChildUpdate] using this
        subst hdb' hr
        refine ⟨rfl, rfl, rfl, ?_⟩
        exact find?_map_update (fun k => k.id == cid)
          (crud.applyChildUpdate old u) db.children hpred (by rw [hf]; rfl)
  · intro db pid u old hf hdisj
    rcases hdisj with h | h | h | h <;> simp [crud.update_parent, hf, h]
  · intro db cid u old hf hdisj
    rcases hdisj with h | h <;> simp [crud.update_child, hf, h]

/-- C10 witness: the child update omitting only the nullable `hobby`
succeeds and stores `none` there (the other attributes verbatim); the
parent update supplying only `age` answers the caught 400; the child update
omitting `age` answers the uncaught 500. -/
theorem C10_update_overwrites_all_fields_witness :
    ((⟨1, some "E", some 9, 1, none⟩ : ChildRec).name = cuNoHobby.name ∧
     (⟨1, some "E", some 9, 1, none⟩ : ChildRec).age = cuNoHobby.age ∧
     (⟨1, some "E", some 9, 1, none⟩ : ChildRec).hobby = cuNoHobby.hobby ∧
     (⟨[pRec], [⟨1, some "E", some 9, 1, none⟩]⟩ : DB).children.find?
         (fun ch => ch.id == 1) =
       some ⟨1, some "E", some 9, 1, none⟩) ∧
    crud.update_parent db0 1 puPartial =
      .error (.http 400 "Parent with this email already exists.") ∧
    crud.update_child db0 1 cuPartial = .error .integrityUnhandled := by
  refine ⟨?_, ?_, ?_⟩
  · exact C10_update_overwrites_all_fields.2.1 db0 1 cuNoHobby
      ⟨[pRec], [⟨1, some "E", some 9, 1, none⟩]⟩
      ⟨1, some "E", some 9, 1, none⟩ (by decide)
  · exact C10_update_overwrites_all_fields.2.2.1 db0 1 puPartial pRec
      (by decide) (Or.inl rfl)
  · exact C10_update_overwrites_all_fields.2.2.2 db0 1 cuPartial cRec
      (by decide) (Or.inr rfl)
